import Mathlib

/-! Shallow embedding of `src/src/ws/ws_manager.rs`: the WebSocket
subscription manager of the hyperliquid-rust-sdk crate.  The model is
pure data: the tokio mutexes are erased, since every façade operation
holds the registry lock for its whole body, so each operation is one
atomic state transformation; the websocket writer is modelled by a
`sendOk` flag (outcome of `writer.send`) plus the list of control frames
successfully sent upstream; the unbounded mpsc channels are modelled by
numeric channel ids together with a `closed` predicate and logs of
delivery attempts and successful deliveries.  `serde_json::from_str` is
code external to this repository, so parsing enters the model as a
function parameter (`parseSub` for descriptors, `parseMsg` for inbound
frames); `serde_json::to_string` on the closed `Subscription` enum never
fails and is embedded concretely as `subToJson`. -/

namespace Hl

section AssocList

variable {κ α : Type} [DecidableEq κ]

/-- Association-list model of `HashMap::get`. -/
def lookupA : List (κ × α) → κ → Option α
  | [], _ => none
  | kv :: rest, k => if kv.1 = k then some kv.2 else lookupA rest k

/-- Replace the value stored at key `k` (no-op when `k` is absent);
used to write back the list obtained from `entry().or_insert` /
`get_mut` after it has been mutated. -/
def updateA : List (κ × α) → κ → α → List (κ × α)
  | [], _, _ => []
  | kv :: rest, k, v =>
    if kv.1 = k then (k, v) :: updateA rest k v else kv :: updateA rest k v

/-- Model of `HashMap::entry(k).or_insert(dflt)`: the map afterwards,
with `k` guaranteed present. -/
def entryOrInsert (l : List (κ × α)) (k : κ) (dflt : α) : List (κ × α) :=
  match lookupA l k with
  | some _ => l
  | none => l ++ [(k, dflt)]

/-- Model of `HashMap::insert k v`. -/
def insertA (l : List (κ × α)) (k : κ) (v : α) : List (κ × α) :=
  match lookupA l k with
  | some _ => updateA l k v
  | none => l ++ [(k, v)]

/-- Model of `HashMap::remove k`. -/
def removeA : List (κ × α) → κ → List (κ × α)
  | [], _ => []
  | kv :: rest, k => if kv.1 = k then removeA rest k else kv :: removeA rest k

end AssocList

/-- The variants of the crate's `Error` enum used by `ws_manager.rs`
(the enum itself lives outside this file's source, in the crate root). -/
inductive WsError where
  | Websocket (e : String)
  | JsonParse (e : String)
  | WsSend (e : String)
  | ReaderTextConversion (e : String)
  | GenericReader (e : String)
  | SubscriptionNotFound
  | UserEvents
deriving DecidableEq, Repr

/-- The `Subscription` descriptor enum.  `H160` account addresses are
modelled as their canonical hex strings. -/
inductive Subscription where
  | AllMids
  | Trades (coin : String)
  | L2Book (coin : String)
  | UserEvents (user : String)
  | UserFills (user : String)
  | Candle (coin : String) (interval : String)
  | OrderUpdates (user : String)
  | UserFundings (user : String)
  | UserNonFundingLedgerUpdates (user : String)
  | Notification (user : String)
deriving DecidableEq, Repr

/-- JSON string literal (escaping of special characters elided; the
claims only use plain alphanumeric coin and user names). -/
def jsonStringLit (s : String) : String := "\"" ++ s ++ "\""

/-- `serde_json::to_string` on a `Subscription` value: serde tagged
representation `\x7b"type": <camelCase variant>, <fields>\x7d`.  This
serialization never fails on the closed enum. -/
def subToJson : Subscription → String
  | Subscription.AllMids => "\x7b\"type\":\"allMids\"\x7d"
  | Subscription.Trades coin =>
      "\x7b\"type\":\"trades\",\"coin\":" ++ jsonStringLit coin ++ "\x7d"
  | Subscription.L2Book coin =>
      "\x7b\"type\":\"l2Book\",\"coin\":" ++ jsonStringLit coin ++ "\x7d"
  | Subscription.UserEvents user =>
      "\x7b\"type\":\"userEvents\",\"user\":" ++ jsonStringLit user ++ "\x7d"
  | Subscription.UserFills user =>
      "\x7b\"type\":\"userFills\",\"user\":" ++ jsonStringLit user ++ "\x7d"
  | Subscription.Candle coin interval =>
      "\x7b\"type\":\"candle\",\"coin\":" ++ jsonStringLit coin ++
        ",\"interval\":" ++ jsonStringLit interval ++ "\x7d"
  | Subscription.OrderUpdates user =>
      "\x7b\"type\":\"orderUpdates\",\"user\":" ++ jsonStringLit user ++ "\x7d"
  | Subscription.UserFundings user =>
      "\x7b\"type\":\"userFundings\",\"user\":" ++ jsonStringLit user ++ "\x7d"
  | Subscription.UserNonFundingLedgerUpdates user =>
      "\x7b\"type\":\"userNonFundingLedgerUpdates\",\"user\":" ++
        jsonStringLit user ++ "\x7d"
  | Subscription.Notification user =>
      "\x7b\"type\":\"notification\",\"user\":" ++ jsonStringLit user ++ "\x7d"

/-- The inbound `Message` enum.  Payload fields the manager never reads
are elided to placeholder strings; `Trades` keeps the list of per-trade
coins because `get_identifier` reads `data.is_empty()` and
`data[0].coin`. -/
inductive InMessage where
  | NoData
  | HyperliquidError (err : String)
  | AllMids (mids : String)
  | Trades (data : List String)
  | L2Book (coin : String) (rest : String)
  | User (data : String)
  | UserFills (data : String)
  | Candle (coin : String) (interval : String) (rest : String)
  | SubscriptionResponse
  | OrderUpdates (data : String)
  | UserFundings (data : String)
  | UserNonFundingLedgerUpdates (user : String) (rest : String)
  | Notification (data : String)
  | Pong
deriving DecidableEq, Repr

/-- `WsManager::get_identifier`. -/
def get_identifier : InMessage → Except WsError String
  | InMessage.AllMids _ => Except.ok (subToJson Subscription.AllMids)
  | InMessage.User _ => Except.ok "userEvents"
  | InMessage.UserFills _ => Except.ok "userFills"
  | InMessage.Trades data =>
      match data with
      | [] => Except.ok ""
      | coin :: _ => Except.ok (subToJson (Subscription.Trades coin))
  | InMessage.L2Book coin _ => Except.ok (subToJson (Subscription.L2Book coin))
  | InMessage.Candle coin interval _ =>
      Except.ok (subToJson (Subscription.Candle coin interval))
  | InMessage.OrderUpdates _ => Except.ok "orderUpdates"
  | InMessage.UserFundings _ => Except.ok "userFundings"
  | InMessage.UserNonFundingLedgerUpdates user _ =>
      Except.ok (subToJson (Subscription.UserNonFundingLedgerUpdates user))
  | InMessage.Notification _ => Except.ok "notification"
  | InMessage.SubscriptionResponse => Except.ok ""
  | InMessage.Pong => Except.ok ""
  | InMessage.NoData => Except.ok ""
  | InMessage.HyperliquidError err =>
      Except.ok ("hyperliquid error: " ++ jsonStringLit err)

/-- One registry entry value: `SubscriptionData`. -/
structure SubscriptionData where
  sending_channel : Nat
  subscription_id : Nat
deriving DecidableEq, Repr

/-- `subscriptions: HashMap<String, Vec<SubscriptionData>>`. -/
abbrev Registry := List (String × List SubscriptionData)

/-- The mutable state of `WsManager` (the transport handles and the stop
flag are modelled by operation parameters rather than stored). -/
structure WsManager where
  subscriptions : Registry
  subscription_id : Nat
  subscription_identifiers : List (Nat × String)
deriving DecidableEq, Repr

/-- State of a freshly constructed manager (`WsManager::new`): empty
registry, id counter 0, empty id index. -/
def initManager : WsManager := ⟨[], 0, []⟩

/-- Control frames sent on the writer half, identified by method and the
original descriptor string whose parsed JSON value is embedded in the
payload. -/
inductive Frame where
  | subscribe (identifier : String)
  | unsubscribe (identifier : String)
  | ping
deriving DecidableEq, Repr

/-- Error text of a failed `writer.send` (the tungstenite error Display
text is abstract). -/
def sendFailMsg : String := "websocket send error"

/-- Error text of `UnboundedSender::send` to a closed channel (the mpsc
SendError Display text is abstract). -/
def channelClosedMsg : String := "channel closed"

/-- Display text of `Error::GenericReader` (the Display impl lives
outside this source file; only its shape matters here). -/
def genericReaderMsg (e : String) : String := "GenericReader: " ++ e

/-- Display text of `Error::ReaderTextConversion` (Display impl outside
this source file). -/
def readerTextConversionMsg (e : String) : String :=
  "ReaderTextConversion: " ++ e

/-- Result of one dispatch step: the returned `Result<()>`, every
delivery attempt made (channel id, message) in order, and the successful
deliveries among them. -/
structure DispatchOut where
  result : Except WsError Unit
  attempts : List (Nat × InMessage)
  delivered : List (Nat × InMessage)
deriving Repr

/-- The fan-out loop over one `Vec<SubscriptionData>`: every handle is
attempted in order; a send to a closed channel overwrites `res` with the
error but the loop continues (last error wins, as in the source). -/
def sendToList (closed : Nat → Bool) (message : InMessage) :
    List SubscriptionData → DispatchOut
  | [] => ⟨Except.ok (), [], []⟩
  | d :: rest =>
    let tail := sendToList closed message rest
    if closed d.sending_channel then
      ⟨match tail.result with
        | Except.ok _ => Except.error (WsError.WsSend channelClosedMsg)
        | Except.error e => Except.error e,
       (d.sending_channel, message) :: tail.attempts,
       tail.delivered⟩
    else
      ⟨tail.result,
       (d.sending_channel, message) :: tail.attempts,
       (d.sending_channel, message) :: tail.delivered⟩

/-- `WsManager::send_to_all_subscriptions`: fan out one message to every
handle of every topic; failures are recorded, iteration continues, the
last recorded error is returned. -/
def send_to_all_subscriptions (closed : Nat → Bool) (subs : Registry)
    (message : InMessage) : DispatchOut :=
  match subs with
  | [] => ⟨Except.ok (), [], []⟩
  | (_, datas) :: rest =>
    let here := sendToList closed message datas
    let tail := send_to_all_subscriptions closed rest message
    ⟨match tail.result with
      | Except.ok _ => here.result
      | Except.error e => Except.error e,
     here.attempts ++ tail.attempts,
     here.delivered ++ tail.delivered⟩

/-- Lines 211-229 of the source: derive the identifier of a parsed
message; an empty identifier is discarded with `Ok(())`; otherwise look
the topic up and fan the message out to its handles. -/
def dispatchMessage (closed : Nat → Bool) (subs : Registry)
    (message : InMessage) : DispatchOut :=
  match get_identifier message with
  | Except.error e => ⟨Except.error e, [], []⟩
  | Except.ok identifier =>
    if identifier.isEmpty then ⟨Except.ok (), [], []⟩
    else
      match lookupA subs identifier with
      | none => ⟨Except.ok (), [], []⟩
      | some datas => sendToList closed message datas

/-- Outcome of `tungstenite Message::into_text`. -/
inductive TextResult where
  | ok (s : String)
  | err (e : String)
deriving DecidableEq, Repr

/-- Outcome of `reader.next().await`: `closed` is `None`, `transportErr`
is `Some(Err(_))`, `frame` is `Some(Ok(_))` with its text conversion. -/
inductive ReadResult where
  | closed
  | transportErr (e : String)
  | frame (t : TextResult)
deriving DecidableEq, Repr

/-- `WsManager::parse_and_send_data`. -/
def parse_and_send_data (parseMsg : String → Except String InMessage)
    (closed : Nat → Bool) (subs : Registry) (data : ReadResult) :
    DispatchOut :=
  match data with
  | ReadResult.closed => send_to_all_subscriptions closed subs InMessage.NoData
  | ReadResult.transportErr e =>
      send_to_all_subscriptions closed subs
        (InMessage.HyperliquidError (genericReaderMsg e))
  | ReadResult.frame (TextResult.err e) =>
      send_to_all_subscriptions closed subs
        (InMessage.HyperliquidError (readerTextConversionMsg e))
  | ReadResult.frame (TextResult.ok s) =>
      if s.startsWith "\x7b" then
        match parseMsg s with
        | Except.error e => ⟨Except.error (WsError.JsonParse e), [], []⟩
        | Except.ok message => dispatchMessage closed subs message
      else ⟨Except.ok (), [], []⟩

/-- The reader task of `WsManager::new` (lines 110-123): while the stop
flag is unset, read the next frame and process it; a `parse_and_send_data`
error is only logged.  `stream` lists the frames the transport yields
before the connection closes; once it is exhausted every further read
yields `closed` (`None`), as a finished stream keeps returning `None`.
`fuel` bounds the number of iterations examined; the result is the number
of read iterations performed and the concatenated delivery attempts. -/
def readerLoop (parseMsg : String → Except String InMessage)
    (closed : Nat → Bool) (stopFlag : Bool) (subs : Registry) :
    Nat → List ReadResult → Nat × List (Nat × InMessage)
  | 0, _ => (0, [])
  | fuel + 1, stream =>
    if stopFlag then (0, [])
    else
      let step : ReadResult × List ReadResult :=
        match stream with
        | [] => (ReadResult.closed, [])
        | r :: rs => (r, rs)
      let out := parse_and_send_data parseMsg closed subs step.1
      let next := readerLoop parseMsg closed stopFlag subs fuel step.2
      (next.1 + 1, out.attempts ++ next.2)

/-- Result of a façade operation: the returned `Result`, the state after
the call, and the control frames successfully sent upstream during it. -/
structure OpOut (α : Type) where
  result : Except WsError α
  state : WsManager
  sentFrames : List Frame
deriving Repr

/-- The coalescing prelude shared by `add_subscription` (lines 278-290)
and `remove_subscription` (lines 333-345): parse the descriptor string;
`UserEvents` and `OrderUpdates` descriptors coalesce onto the fixed
literals, anything else keeps its serialized form.  The source parses the
same string twice with the same pure parser, so one parse is faithful. -/
def identifierEntry (parseSub : String → Except String Subscription)
    (identifier : String) : Except WsError String :=
  match parseSub identifier with
  | Except.error e => Except.error (WsError.JsonParse e)
  | Except.ok (Subscription.UserEvents _) => Except.ok "userEvents"
  | Except.ok (Subscription.OrderUpdates _) => Except.ok "orderUpdates"
  | Except.ok _ => Except.ok identifier

/-- The `u32` modulus: the source stores `subscription_id` in a `u32`,
so the `+= 1` at line 322 wraps at `2 ^ 32` (release-build wrapping
semantics; a debug build would panic on the overflow instead). -/
def u32Mod : Nat := 2 ^ 32

/-- Lines 314-323 of the source: allocate the current id, record
id → original descriptor string, append the new handle to the entry's
list, increment the `u32` counter (wrapping at `2 ^ 32`). -/
def finishAdd (st : WsManager) (reg1 : Registry) (entry : String)
    (cur : List SubscriptionData) (identifier : String)
    (sending_channel : Nat) (frames : List Frame) : OpOut Nat :=
  let sid := st.subscription_id
  ⟨Except.ok sid,
   { subscriptions := updateA reg1 entry (cur ++ [⟨sending_channel, sid⟩]),
     subscription_id := (sid + 1) % u32Mod,
     subscription_identifiers := insertA st.subscription_identifiers sid identifier },
   frames⟩

/-- `WsManager::add_subscription`.  `sendOk` is the outcome of
`writer.send` if it is reached; when the send fails the call returns
`Error::Websocket` with the entry created by `entry().or_insert` still
in the map.  Note that on the success path the subscribe payload embeds
the original `identifier`, and `from_str::<serde_json::Value>` cannot
fail there because `parseSub identifier` already succeeded on the same
string. -/
def add_subscription (parseSub : String → Except String Subscription)
    (sendOk : Bool) (st : WsManager) (identifier : String)
    (sending_channel : Nat) : OpOut Nat :=
  match identifierEntry parseSub identifier with
  | Except.error e => ⟨Except.error e, st, []⟩
  | Except.ok entry =>
    let reg1 := entryOrInsert st.subscriptions entry []
    let cur := (lookupA st.subscriptions entry).getD []
    if cur.isEmpty = false ∧ entry = "userEvents" then
      ⟨Except.error WsError.UserEvents, { st with subscriptions := reg1 }, []⟩
    else if cur.isEmpty then
      if sendOk then
        finishAdd st reg1 entry cur identifier sending_channel
          [Frame.subscribe identifier]
      else
        ⟨Except.error (WsError.Websocket sendFailMsg),
         { st with subscriptions := reg1 }, []⟩
    else
      finishAdd st reg1 entry cur identifier sending_channel []

/-- `WsManager::remove_subscription`.  The id is dropped from
`subscription_identifiers` (line 347) before the registry is touched, so
the two later `NotFound` paths and the failed-unsubscribe path all leave
the id already removed. -/
def remove_subscription (parseSub : String → Except String Subscription)
    (sendOk : Bool) (st : WsManager) (sid : Nat) : OpOut Unit :=
  match lookupA st.subscription_identifiers sid with
  | none => ⟨Except.error WsError.SubscriptionNotFound, st, []⟩
  | some identifier =>
    match identifierEntry parseSub identifier with
    | Except.error e => ⟨Except.error e, st, []⟩
    | Except.ok entry =>
      let ids1 := removeA st.subscription_identifiers sid
      match lookupA st.subscriptions entry with
      | none =>
        ⟨Except.error WsError.SubscriptionNotFound,
         { st with subscription_identifiers := ids1 }, []⟩
      | some datas =>
        match List.findIdx? (fun d => d.subscription_id == sid) datas with
        | none =>
          ⟨Except.error WsError.SubscriptionNotFound,
           { st with subscription_identifiers := ids1 }, []⟩
        | some index =>
          let datas1 := datas.eraseIdx index
          let st1 : WsManager :=
            { subscriptions := updateA st.subscriptions entry datas1,
              subscription_id := st.subscription_id,
              subscription_identifiers := ids1 }
          if datas1.isEmpty then
            if sendOk then
              ⟨Except.ok (), st1, [Frame.unsubscribe identifier]⟩
            else
              ⟨Except.error (WsError.Websocket sendFailMsg), st1, []⟩
          else ⟨Except.ok (), st1, []⟩

/-- States reachable from a fresh manager through façade operations,
with arbitrary descriptors, channels and send outcomes at each step. -/
inductive Reachable (parseSub : String → Except String Subscription) :
    WsManager → Prop where
  | init : Reachable parseSub initManager
  | addStep (st : WsManager) (sendOk : Bool) (identifier : String)
      (sending_channel : Nat) : Reachable parseSub st →
      Reachable parseSub
        (add_subscription parseSub sendOk st identifier sending_channel).state
  | removeStep (st : WsManager) (sendOk : Bool) (sid : Nat) :
      Reachable parseSub st →
      Reachable parseSub (remove_subscription parseSub sendOk st sid).state

/-- One façade call in a trace. -/
inductive WsOp where
  | addOp (sendOk : Bool) (identifier : String) (sending_channel : Nat)
  | removeOp (sendOk : Bool) (sid : Nat)
deriving DecidableEq, Repr

/-- Run a trace of façade calls, collecting in order the ids returned by
the successful `add_subscription` calls. -/
def runOps (parseSub : String → Except String Subscription) :
    WsManager → List WsOp → WsManager × List Nat
  | st, [] => (st, [])
  | st, WsOp.addOp sendOk identifier sending_channel :: rest =>
    let out := add_subscription parseSub sendOk st identifier sending_channel
    let next := runOps parseSub out.state rest
    match out.result with
    | Except.ok sid => (next.1, sid :: next.2)
    | Except.error _ => (next.1, next.2)
  | st, WsOp.removeOp sendOk sid :: rest =>
    let out := remove_subscription parseSub sendOk st sid
    runOps parseSub out.state rest

/-- A concrete descriptor parser for witnesses and counterexamples:
inverts `subToJson` on the few descriptors the tests use, rejects
everything else (serde rejects what it cannot type as well). -/
def parseSubTest (s : String) : Except String Subscription :=
  if s = subToJson Subscription.AllMids then Except.ok Subscription.AllMids
  else if s = subToJson (Subscription.L2Book "BTC") then
    Except.ok (Subscription.L2Book "BTC")
  else if s = subToJson (Subscription.UserEvents "0xabc") then
    Except.ok (Subscription.UserEvents "0xabc")
  else Except.error "invalid subscription"

/-- The serialized L2Book BTC descriptor used by concrete tests. -/
def identBTC : String := subToJson (Subscription.L2Book "BTC")

/-- The serialized UserEvents descriptor used by concrete tests. -/
def identUE : String := subToJson (Subscription.UserEvents "0xabc")

/-- A message parser that accepts nothing; the closed-connection branch
never consults it. -/
def pmNone : String → Except String InMessage :=
  fun _ => Except.error "unexpected"

/-- All channels open. -/
def clOpen : Nat → Bool := fun _ => false

/-- A one-topic, one-subscriber registry for concrete tests. -/
def subsOne : Registry := [("t", [⟨5, 0⟩])]

/-- A manager holding one userEvents subscriber (id 0 on channel 3). -/
def stUE : WsManager := ⟨[("userEvents", [⟨3, 0⟩])], 1, [(0, identUE)]⟩

/-- A channel predicate with exactly channel 5 closed. -/
def clOne : Nat → Bool := fun n => n == 5

/-- A registry with two L2Book BTC subscribers on channels 5 and 6. -/
def subsTwo : Registry := [(identBTC, [⟨5, 0⟩, ⟨6, 1⟩])]

/-- A manager holding one L2Book BTC subscriber (id 0 on channel 0). -/
def stBTC : WsManager := ⟨[(identBTC, [⟨0, 0⟩])], 1, [(0, identBTC)]⟩

end Hl

namespace Hl

section AssocLemmas

variable {κ α : Type} [DecidableEq κ]

theorem lookupA_append (l l2 : List (κ × α)) (k : κ) :
    lookupA (l ++ l2) k =
      match lookupA l k with
      | some v => some v
      | none => lookupA l2 k := by
  induction l with
  | nil => simp [lookupA]
  | cons kv rest ih =>
    by_cases h : kv.1 = k <;> simp [lookupA, h, ih]

theorem lookupA_entryOrInsert_self (l : List (κ × α)) (k : κ) (d : α) :
    lookupA (entryOrInsert l k d) k = some ((lookupA l k).getD d) := by
  unfold entryOrInsert
  cases h : lookupA l k with
  | some v => simp [h]
  | none => simp [lookupA_append, h, lookupA]

theorem lookupA_entryOrInsert_ne (l : List (κ × α)) (k k2 : κ) (d : α)
    (h : k2 ≠ k) : lookupA (entryOrInsert l k d) k2 = lookupA l k2 := by
  unfold entryOrInsert
  cases hk : lookupA l k with
  | some v => rfl
  | none =>
    rw [lookupA_append]
    have hne : ¬ k = k2 := fun he => h he.symm
    cases h2 : lookupA l k2 <;> simp [lookupA, hne]

theorem entryOrInsert_present (l : List (κ × α)) (k : κ) (d : α) (v : α)
    (h : lookupA l k = some v) : entryOrInsert l k d = l := by
  unfold entryOrInsert
  rw [h]

theorem lookupA_updateA_ne (l : List (κ × α)) (k k2 : κ) (v : α)
    (h : k2 ≠ k) : lookupA (updateA l k v) k2 = lookupA l k2 := by
  induction l with
  | nil => rfl
  | cons kv rest ih =>
    by_cases hk : kv.1 = k
    · have hne : ¬ k = k2 := fun he => h he.symm
      simp [updateA, hk, lookupA, hne, ih]
    · simp [updateA, hk, lookupA, ih]

theorem lookupA_updateA_self (l : List (κ × α)) (k : κ) (v w : α)
    (h : lookupA l k = some w) : lookupA (updateA l k v) k = some v := by
  induction l with
  | nil => simp [lookupA] at h
  | cons kv rest ih =>
    by_cases hk : kv.1 = k
    · simp [updateA, hk, lookupA]
    · simp [lookupA, hk] at h
      simp [updateA, hk, lookupA, ih h]

theorem lookupA_removeA_self (l : List (κ × α)) (k : κ) :
    lookupA (removeA l k) k = none := by
  induction l with
  | nil => rfl
  | cons kv rest ih =>
    by_cases hk : kv.1 = k <;> simp [removeA, hk, lookupA, ih]

end AssocLemmas

theorem length_eraseIdx_le (l : List SubscriptionData) (i : Nat) :
    (l.eraseIdx i).length ≤ l.length := by
  induction l generalizing i with
  | nil => simp [List.eraseIdx]
  | cons a rest ih =>
    cases i with
    | zero => simp [List.eraseIdx]
    | succ j =>
      simp only [List.eraseIdx, List.length_cons]
      exact Nat.succ_le_succ (ih j)

end Hl

namespace Hl

theorem identifierEntry_error_eq (ps : String → Except String Subscription)
    (ident : String) (e : WsError)
    (h : identifierEntry ps ident = Except.error e) :
    ∃ msg, e = WsError.JsonParse msg := by
  unfold identifierEntry at h
  cases hp : ps ident with
  | error msg =>
    rw [hp] at h
    simp at h
    exact ⟨msg, h.symm⟩
  | ok s =>
    rw [hp] at h
    cases s <;> simp at h

theorem add_identifierEntry_err (ps : String → Except String Subscription)
    (sendOk : Bool) (st : WsManager) (ident : String) (chan : Nat)
    (e : WsError) (h : identifierEntry ps ident = Except.error e) :
    add_subscription ps sendOk st ident chan = ⟨Except.error e, st, []⟩ := by
  unfold add_subscription
  rw [h]

theorem add_case_guard (ps : String → Except String Subscription)
    (sendOk : Bool) (st : WsManager) (ident : String) (chan : Nat)
    (entry : String) (h : identifierEntry ps ident = Except.ok entry)
    (hne : ((lookupA st.subscriptions entry).getD []).isEmpty = false)
    (hue : entry = "userEvents") :
    add_subscription ps sendOk st ident chan =
      ⟨Except.error WsError.UserEvents,
       { st with subscriptions := entryOrInsert st.subscriptions entry [] },
       []⟩ := by
  unfold add_subscription
  rw [h]
  subst hue
  simp [hne]

theorem add_case_first_ok (ps : String → Except String Subscription)
    (st : WsManager) (ident : String) (chan : Nat)
    (entry : String) (h : identifierEntry ps ident = Except.ok entry)
    (he : ((lookupA st.subscriptions entry).getD []).isEmpty = true) :
    add_subscription ps true st ident chan =
      finishAdd st (entryOrInsert st.subscriptions entry []) entry
        ((lookupA st.subscriptions entry).getD []) ident chan
        [Frame.subscribe ident] := by
  unfold add_subscription
  rw [h]
  simp [he]

theorem add_case_first_fail (ps : String → Except String Subscription)
    (st : WsManager) (ident : String) (chan : Nat)
    (entry : String) (h : identifierEntry ps ident = Except.ok entry)
    (he : ((lookupA st.subscriptions entry).getD []).isEmpty = true) :
    add_subscription ps false st ident chan =
      ⟨Except.error (WsError.Websocket sendFailMsg),
       { st with subscriptions := entryOrInsert st.subscriptions entry [] },
       []⟩ := by
  unfold add_subscription
  rw [h]
  simp [he]

theorem add_case_not_first (ps : String → Except String Subscription)
    (sendOk : Bool) (st : WsManager) (ident : String) (chan : Nat)
    (entry : String) (h : identifierEntry ps ident = Except.ok entry)
    (hne : ((lookupA st.subscriptions entry).getD []).isEmpty = false)
    (hue : ¬ entry = "userEvents") :
    add_subscription ps sendOk st ident chan =
      finishAdd st (entryOrInsert st.subscriptions entry []) entry
        ((lookupA st.subscriptions entry).getD []) ident chan [] := by
  unfold add_subscription
  rw [h]
  simp [hne, hue]

theorem remove_not_found (ps : String → Except String Subscription)
    (sendOk : Bool) (st : WsManager) (sid : Nat)
    (h : lookupA st.subscription_identifiers sid = none) :
    remove_subscription ps sendOk st sid =
      ⟨Except.error WsError.SubscriptionNotFound, st, []⟩ := by
  unfold remove_subscription
  rw [h]

theorem remove_parse_err (ps : String → Except String Subscription)
    (sendOk : Bool) (st : WsManager) (sid : Nat) (ident : String)
    (e : WsError)
    (h1 : lookupA st.subscription_identifiers sid = some ident)
    (h2 : identifierEntry ps ident = Except.error e) :
    remove_subscription ps sendOk st sid = ⟨Except.error e, st, []⟩ := by
  unfold remove_subscription
  rw [h1]
  simp [h2]

theorem remove_entry_missing (ps : String → Except String Subscription)
    (sendOk : Bool) (st : WsManager) (sid : Nat) (ident entry : String)
    (h1 : lookupA st.subscription_identifiers sid = some ident)
    (h2 : identifierEntry ps ident = Except.ok entry)
    (h3 : lookupA st.subscriptions entry = none) :
    remove_subscription ps sendOk st sid =
      ⟨Except.error WsError.SubscriptionNotFound,
       { st with subscription_identifiers :=
           removeA st.subscription_identifiers sid },
       []⟩ := by
  unfold remove_subscription
  rw [h1]
  simp [h2, h3]

theorem remove_idx_missing (ps : String → Except String Subscription)
    (sendOk : Bool) (st : WsManager) (sid : Nat) (ident entry : String)
    (datas : List SubscriptionData)
    (h1 : lookupA st.subscription_identifiers sid = some ident)
    (h2 : identifierEntry ps ident = Except.ok entry)
    (h3 : lookupA st.subscriptions entry = some datas)
    (h4 : List.findIdx? (fun d => d.subscription_id == sid) datas = none) :
    remove_subscription ps sendOk st sid =
      ⟨Except.error WsError.SubscriptionNotFound,
       { st with subscription_identifiers :=
           removeA st.subscription_identifiers sid },
       []⟩ := by
  unfold remove_subscription
  rw [h1]
  simp [h2, h3, h4]

theorem remove_case_empty_ok (ps : String → Except String Subscription)
    (st : WsManager) (sid : Nat) (ident entry : String)
    (datas : List SubscriptionData) (index : Nat)
    (h1 : lookupA st.subscription_identifiers sid = some ident)
    (h2 : identifierEntry ps ident = Except.ok entry)
    (h3 : lookupA st.subscriptions entry = some datas)
    (h4 : List.findIdx? (fun d => d.subscription_id == sid) datas = some index)
    (h5 : (datas.eraseIdx index).isEmpty = true) :
    remove_subscription ps true st sid =
      ⟨Except.ok (),
       ⟨updateA st.subscriptions entry (datas.eraseIdx index),
        st.subscription_id, removeA st.subscription_identifiers sid⟩,
       [Frame.unsubscribe ident]⟩ := by
  unfold remove_subscription
  rw [h1]
  simp [h2, h3, h4, h5]

theorem remove_case_empty_fail (ps : String → Except String Subscription)
    (st : WsManager) (sid : Nat) (ident entry : String)
    (datas : List SubscriptionData) (index : Nat)
    (h1 : lookupA st.subscription_identifiers sid = some ident)
    (h2 : identifierEntry ps ident = Except.ok entry)
    (h3 : lookupA st.subscriptions entry = some datas)
    (h4 : List.findIdx? (fun d => d.subscription_id == sid) datas = some index)
    (h5 : (datas.eraseIdx index).isEmpty = true) :
    remove_subscription ps false st sid =
      ⟨Except.error (WsError.Websocket sendFailMsg),
       ⟨updateA st.subscriptions entry (datas.eraseIdx index),
        st.subscription_id, removeA st.subscription_identifiers sid⟩,
       []⟩ := by
  unfold remove_subscription
  rw [h1]
  simp [h2, h3, h4, h5]

theorem remove_case_nonempty (ps : String → Except String Subscription)
    (sendOk : Bool) (st : WsManager) (sid : Nat) (ident entry : String)
    (datas : List SubscriptionData) (index : Nat)
    (h1 : lookupA st.subscription_identifiers sid = some ident)
    (h2 : identifierEntry ps ident = Except.ok entry)
    (h3 : lookupA st.subscriptions entry = some datas)
    (h4 : List.findIdx? (fun d => d.subscription_id == sid) datas = some index)
    (h5 : (datas.eraseIdx index).isEmpty = false) :
    remove_subscription ps sendOk st sid =
      ⟨Except.ok (),
       ⟨updateA st.subscriptions entry (datas.eraseIdx index),
        st.subscription_id, removeA st.subscription_identifiers sid⟩,
       []⟩ := by
  unfold remove_subscription
  rw [h1]
  simp [h2, h3, h4, h5]

end Hl

namespace Hl

theorem sendToList_attempts (closed : Nat → Bool) (message : InMessage)
    (datas : List SubscriptionData) :
    (sendToList closed message datas).attempts =
      datas.map (fun d => (d.sending_channel, message)) := by
  induction datas with
  | nil => rfl
  | cons d rest ih =>
    by_cases hd : closed d.sending_channel <;>
      simp [sendToList, hd, ih]

theorem sendToList_delivered_open (closed : Nat → Bool) (message : InMessage)
    (datas : List SubscriptionData)
    (h : ∀ d ∈ datas, closed d.sending_channel = false) :
    (sendToList closed message datas).delivered =
      datas.map (fun d => (d.sending_channel, message)) := by
  induction datas with
  | nil => rfl
  | cons d rest ih =>
    have hd : closed d.sending_channel = false := h d (List.mem_cons_self d rest)
    have hrest : ∀ x ∈ rest, closed x.sending_channel = false :=
      fun x hx => h x (List.mem_cons_of_mem d hx)
    simp [sendToList, hd, ih hrest]

theorem sendToList_result (closed : Nat → Bool) (message : InMessage)
    (datas : List SubscriptionData) :
    (sendToList closed message datas).result =
      if datas.any (fun d => closed d.sending_channel) then
        Except.error (WsError.WsSend channelClosedMsg)
      else Except.ok () := by
  induction datas with
  | nil => rfl
  | cons d rest ih =>
    by_cases hd : closed d.sending_channel
    · simp only [sendToList, hd, if_true, ih, List.any_cons]
      by_cases hr : rest.any (fun d => closed d.sending_channel) <;> simp [hd, hr]
    · simp [sendToList, hd, ih, List.any_cons]

theorem send_to_all_attempts (closed : Nat → Bool) (subs : Registry)
    (message : InMessage) :
    (send_to_all_subscriptions closed subs message).attempts =
      (subs.map (fun kv =>
        kv.2.map (fun d => (d.sending_channel, message)))).flatten := by
  induction subs with
  | nil => rfl
  | cons kv rest ih =>
    simp [send_to_all_subscriptions, sendToList_attempts, ih]

theorem add_result_ok_id (ps : String → Except String Subscription)
    (sendOk : Bool) (st : WsManager) (ident : String) (chan sid : Nat)
    (h : (add_subscription ps sendOk st ident chan).result = Except.ok sid) :
    sid = st.subscription_id ∧
    (add_subscription ps sendOk st ident chan).state.subscription_id =
      (st.subscription_id + 1) % u32Mod := by
  cases hE : identifierEntry ps ident with
  | error e =>
    rw [add_identifierEntry_err ps sendOk st ident chan e hE] at h
    simp at h
  | ok entry =>
    cases hne : ((lookupA st.subscriptions entry).getD []).isEmpty with
    | true =>
      cases sendOk with
      | true =>
        rw [add_case_first_ok ps st ident chan entry hE hne] at h ⊢
        simp [finishAdd] at h ⊢
        exact h.symm
      | false =>
        rw [add_case_first_fail ps st ident chan entry hE hne] at h
        simp at h
    | false =>
      by_cases hue : entry = "userEvents"
      · rw [add_case_guard ps sendOk st ident chan entry hE hne hue] at h
        simp at h
      · rw [add_case_not_first ps sendOk st ident chan entry hE hne hue] at h ⊢
        simp [finishAdd] at h ⊢
        exact h.symm

theorem add_result_err_id (ps : String → Except String Subscription)
    (sendOk : Bool) (st : WsManager) (ident : String) (chan : Nat)
    (e : WsError)
    (h : (add_subscription ps sendOk st ident chan).result = Except.error e) :
    (add_subscription ps sendOk st ident chan).state.subscription_id =
      st.subscription_id := by
  cases hE : identifierEntry ps ident with
  | error e2 =>
    rw [add_identifierEntry_err ps sendOk st ident chan e2 hE]
  | ok entry =>
    cases hne : ((lookupA st.subscriptions entry).getD []).isEmpty with
    | true =>
      cases sendOk with
      | true =>
        rw [add_case_first_ok ps st ident chan entry hE hne] at h
        simp [finishAdd] at h
      | false =>
        rw [add_case_first_fail ps st ident chan entry hE hne]
    | false =>
      by_cases hue : entry = "userEvents"
      · rw [add_case_guard ps sendOk st ident chan entry hE hne hue]
      · rw [add_case_not_first ps sendOk st ident chan entry hE hne hue] at h
        simp [finishAdd] at h

theorem remove_state_id (ps : String → Except String Subscription)
    (sendOk : Bool) (st : WsManager) (sid : Nat) :
    (remove_subscription ps sendOk st sid).state.subscription_id =
      st.subscription_id := by
  cases hid : lookupA st.subscription_identifiers sid with
  | none => rw [remove_not_found ps sendOk st sid hid]
  | some ident =>
    cases hE : identifierEntry ps ident with
    | error e => rw [remove_parse_err ps sendOk st sid ident e hid hE]
    | ok entry =>
      cases hl : lookupA st.subscriptions entry with
      | none => rw [remove_entry_missing ps sendOk st sid ident entry hid hE hl]
      | some datas =>
        cases hf : List.findIdx? (fun d => d.subscription_id == sid) datas with
        | none =>
          rw [remove_idx_missing ps sendOk st sid ident entry datas hid hE hl hf]
        | some index =>
          cases h5 : (datas.eraseIdx index).isEmpty with
          | true =>
            cases sendOk with
            | true =>
              rw [remove_case_empty_ok ps st sid ident entry datas index hid hE hl hf h5]
            | false =>
              rw [remove_case_empty_fail ps st sid ident entry datas index hid hE hl hf h5]
          | false =>
            rw [remove_case_nonempty ps sendOk st sid ident entry datas index hid hE hl hf h5]

end Hl

namespace Hl

theorem remove_main_state (ps : String → Except String Subscription)
    (sendOk : Bool) (st : WsManager) (sid : Nat) (ident entry : String)
    (datas : List SubscriptionData) (index : Nat)
    (h1 : lookupA st.subscription_identifiers sid = some ident)
    (h2 : identifierEntry ps ident = Except.ok entry)
    (h3 : lookupA st.subscriptions entry = some datas)
    (h4 : List.findIdx? (fun d => d.subscription_id == sid) datas = some index) :
    (remove_subscription ps sendOk st sid).state =
      ⟨updateA st.subscriptions entry (datas.eraseIdx index),
       st.subscription_id, removeA st.subscription_identifiers sid⟩ := by
  cases h5 : (datas.eraseIdx index).isEmpty with
  | true =>
    cases sendOk with
    | true => rw [remove_case_empty_ok ps st sid ident entry datas index h1 h2 h3 h4 h5]
    | false => rw [remove_case_empty_fail ps st sid ident entry datas index h1 h2 h3 h4 h5]
  | false =>
    rw [remove_case_nonempty ps sendOk st sid ident entry datas index h1 h2 h3 h4 h5]

theorem add_preserves_ue (ps : String → Except String Subscription)
    (sendOk : Bool) (st : WsManager) (ident : String) (chan : Nat)
    (hP : ∀ l, lookupA st.subscriptions "userEvents" = some l → l.length ≤ 1) :
    ∀ l, lookupA (add_subscription ps sendOk st ident chan).state.subscriptions
        "userEvents" = some l → l.length ≤ 1 := by
  intro l hl
  cases hE : identifierEntry ps ident with
  | error e =>
    rw [add_identifierEntry_err ps sendOk st ident chan e hE] at hl
    exact hP l hl
  | ok entry =>
    cases hne : ((lookupA st.subscriptions entry).getD []).isEmpty with
    | true =>
      have hcur : (lookupA st.subscriptions entry).getD [] = [] := by
        simpa using hne
      cases sendOk with
      | true =>
        rw [add_case_first_ok ps st ident chan entry hE hne] at hl
        simp only [finishAdd] at hl
        by_cases hue : entry = "userEvents"
        · subst hue
          rw [hcur] at hl
          rw [lookupA_updateA_self (entryOrInsert st.subscriptions "userEvents" [])
            "userEvents" _ _ (lookupA_entryOrInsert_self st.subscriptions
              "userEvents" [])] at hl
          cases hl
          simp
        · rw [lookupA_updateA_ne _ _ _ _ (fun he => hue he.symm),
            lookupA_entryOrInsert_ne _ _ _ _ (fun he => hue he.symm)] at hl
          exact hP l hl
      | false =>
        rw [add_case_first_fail ps st ident chan entry hE hne] at hl
        simp only at hl
        by_cases hue : entry = "userEvents"
        · subst hue
          rw [lookupA_entryOrInsert_self, hcur] at hl
          cases hl
          simp
        · rw [lookupA_entryOrInsert_ne _ _ _ _ (fun he => hue he.symm)] at hl
          exact hP l hl
    | false =>
      by_cases hue : entry = "userEvents"
      · rw [add_case_guard ps sendOk st ident chan entry hE hne hue] at hl
        simp only at hl
        have hsome : ∃ cur, lookupA st.subscriptions entry = some cur := by
          cases hq : lookupA st.subscriptions entry with
          | none => rw [hq] at hne; simp at hne
          | some cur => exact ⟨cur, rfl⟩
        obtain ⟨cur, hcur2⟩ := hsome
        rw [entryOrInsert_present st.subscriptions entry [] cur hcur2] at hl
        exact hP l hl
      · rw [add_case_not_first ps sendOk st ident chan entry hE hne hue] at hl
        simp only [finishAdd] at hl
        rw [lookupA_updateA_ne _ _ _ _ (fun he => hue he.symm),
          lookupA_entryOrInsert_ne _ _ _ _ (fun he => hue he.symm)] at hl
        exact hP l hl

theorem remove_preserves_ue (ps : String → Except String Subscription)
    (sendOk : Bool) (st : WsManager) (sid : Nat)
    (hP : ∀ l, lookupA st.subscriptions "userEvents" = some l → l.length ≤ 1) :
    ∀ l, lookupA (remove_subscription ps sendOk st sid).state.subscriptions
        "userEvents" = some l → l.length ≤ 1 := by
  intro l hl
  cases hid : lookupA st.subscription_identifiers sid with
  | none =>
    rw [remove_not_found ps sendOk st sid hid] at hl
    exact hP l hl
  | some ident =>
    cases hE : identifierEntry ps ident with
    | error e =>
      rw [remove_parse_err ps sendOk st sid ident e hid hE] at hl
      exact hP l hl
    | ok entry =>
      cases hl3 : lookupA st.subscriptions entry with
      | none =>
        rw [remove_entry_missing ps sendOk st sid ident entry hid hE hl3] at hl
        exact hP l hl
      | some datas =>
        cases hf : List.findIdx? (fun d => d.subscription_id == sid) datas with
        | none =>
          rw [remove_idx_missing ps sendOk st sid ident entry datas hid hE hl3 hf] at hl
          exact hP l hl
        | some index =>
          rw [remove_main_state ps sendOk st sid ident entry datas index hid hE hl3 hf] at hl
          simp only at hl
          by_cases hue : entry = "userEvents"
          · subst hue
            rw [lookupA_updateA_self st.subscriptions "userEvents" _ datas hl3] at hl
            cases hl
            exact le_trans (length_eraseIdx_le datas index) (hP datas hl3)
          · rw [lookupA_updateA_ne _ _ _ _ (fun he => hue he.symm)] at hl
            exact hP l hl

theorem reachable_ue_at_most_one (ps : String → Except String Subscription)
    (st : WsManager) (h : Reachable ps st) :
    ∀ l, lookupA st.subscriptions "userEvents" = some l → l.length ≤ 1 := by
  induction h with
  | init => intro l hl; simp [initManager, lookupA] at hl
  | addStep st sendOk ident chan _ ih =>
    exact add_preserves_ue ps sendOk st ident chan ih
  | removeStep st sendOk sid _ ih =>
    exact remove_preserves_ue ps sendOk st sid ih

end Hl

namespace Hl

/-- C1 counterexample: an `add_subscription` whose upstream subscribe
send fails returns an error yet leaves the freshly created topic key in
the Registry mapped to the empty list, so an error-returning add can
leave a topic key with an empty list behind, contrary to the claim. -/
theorem C1_counterexample :
    (add_subscription parseSubTest false initManager identBTC 0).result =
      Except.error (WsError.Websocket sendFailMsg) ∧
    lookupA (add_subscription parseSubTest false initManager identBTC
      0).state.subscriptions identBTC = some [] :=
  ⟨rfl, rfl⟩

/-- C1 (amended): topic keys can map to empty lists outside critical
sections.  An add failing on descriptor parse leaves the whole state
unchanged; an add failing with AlreadySubscribed leaves the state
unchanged and sends nothing; but an add that fails on the upstream
subscribe send leaves its newly created topic key mapped to the empty
list, and a successful remove that empties a topic's list keeps the key
in the Registry mapped to the empty list. -/
theorem C1_amended_theorem :
    (∀ (ps : String → Except String Subscription) (sendOk : Bool)
       (st : WsManager) (ident : String) (chan : Nat) (e : String),
       ps ident = Except.error e →
       add_subscription ps sendOk st ident chan =
         ⟨Except.error (WsError.JsonParse e), st, []⟩)
    ∧ (∀ (ps : String → Except String Subscription) (sendOk : Bool)
       (st : WsManager) (ident : String) (chan : Nat),
       (add_subscription ps sendOk st ident chan).result =
         Except.error WsError.UserEvents →
       (add_subscription ps sendOk st ident chan).state = st ∧
       (add_subscription ps sendOk st ident chan).sentFrames = [])
    ∧ (∀ (ps : String → Except String Subscription) (st : WsManager)
       (ident : String) (chan : Nat) (entry : String),
       identifierEntry ps ident = Except.ok entry →
       (lookupA st.subscriptions entry).getD [] = [] →
       (add_subscription ps false st ident chan).result =
         Except.error (WsError.Websocket sendFailMsg) ∧
       lookupA (add_subscription ps false st ident chan).state.subscriptions
         entry = some [])
    ∧ (∀ (ps : String → Except String Subscription) (st : WsManager)
       (sid : Nat) (ident entry : String) (datas : List SubscriptionData)
       (index : Nat),
       lookupA st.subscription_identifiers sid = some ident →
       identifierEntry ps ident = Except.ok entry →
       lookupA st.subscriptions entry = some datas →
       List.findIdx? (fun d => d.subscription_id == sid) datas = some index →
       (datas.eraseIdx index).isEmpty = true →
       (remove_subscription ps true st sid).result = Except.ok () ∧
       lookupA (remove_subscription ps true st sid).state.subscriptions
         entry = some []) := by
  refine ⟨?_, ?_, ?_, ?_⟩
  · intro ps sendOk st ident chan e h
    have hE : identifierEntry ps ident = Except.error (WsError.JsonParse e) := by
      unfold identifierEntry
      rw [h]
    exact add_identifierEntry_err ps sendOk st ident chan _ hE
  · intro ps sendOk st ident chan h
    cases hE : identifierEntry ps ident with
    | error e =>
      obtain ⟨msg, hmsg⟩ := identifierEntry_error_eq ps ident e hE
      rw [add_identifierEntry_err ps sendOk st ident chan e hE] at h
      simp [hmsg] at h
    | ok entry =>
      cases hne : ((lookupA st.subscriptions entry).getD []).isEmpty with
      | true =>
        cases sendOk with
        | true =>
          rw [add_case_first_ok ps st ident chan entry hE hne] at h
          simp [finishAdd] at h
        | false =>
          rw [add_case_first_fail ps st ident chan entry hE hne] at h
          simp at h
      | false =>
        by_cases hue : entry = "userEvents"
        · have hsome : ∃ cur, lookupA st.subscriptions entry = some cur := by
            cases hq : lookupA st.subscriptions entry with
            | none => rw [hq] at hne; simp at hne
            | some cur => exact ⟨cur, rfl⟩
          obtain ⟨cur, hcur⟩ := hsome
          rw [add_case_guard ps sendOk st ident chan entry hE hne hue]
          rw [entryOrInsert_present st.subscriptions entry [] cur hcur]
          exact ⟨rfl, rfl⟩
        · rw [add_case_not_first ps sendOk st ident chan entry hE hne hue] at h
          simp [finishAdd] at h
  · intro ps st ident chan entry hE hEmpty
    have hne : ((lookupA st.subscriptions entry).getD []).isEmpty = true := by
      rw [hEmpty]
      rfl
    rw [add_case_first_fail ps st ident chan entry hE hne]
    refine ⟨rfl, ?_⟩
    rw [lookupA_entryOrInsert_self, hEmpty]
  · intro ps st sid ident entry datas index h1 h2 h3 h4 h5
    have he : datas.eraseIdx index = [] := by simpa using h5
    rw [remove_case_empty_ok ps st sid ident entry datas index h1 h2 h3 h4 h5]
    refine ⟨rfl, ?_⟩
    rw [lookupA_updateA_self st.subscriptions entry _ datas h3, he]

/-- C1 amended witness: the four amended cases at concrete inputs. -/
theorem C1_amended_witness :
    (add_subscription parseSubTest true initManager "garbage" 7 =
      ⟨Except.error (WsError.JsonParse "invalid subscription"),
       initManager, []⟩) ∧
    ((add_subscription parseSubTest true stUE identUE 4).state = stUE ∧
     (add_subscription parseSubTest true stUE identUE 4).sentFrames = []) ∧
    ((add_subscription parseSubTest false initManager identBTC 1).result =
        Except.error (WsError.Websocket sendFailMsg) ∧
     lookupA (add_subscription parseSubTest false initManager identBTC
       1).state.subscriptions identBTC = some []) ∧
    ((remove_subscription parseSubTest true stBTC 0).result = Except.ok () ∧
     lookupA (remove_subscription parseSubTest true stBTC
       0).state.subscriptions identBTC = some []) :=
  ⟨C1_amended_theorem.1 parseSubTest true initManager "garbage" 7
     "invalid subscription" rfl,
   C1_amended_theorem.2.1 parseSubTest true stUE identUE 4 rfl,
   C1_amended_theorem.2.2.1 parseSubTest initManager identBTC 1 identBTC
     rfl rfl,
   C1_amended_theorem.2.2.2 parseSubTest stBTC 0 identBTC identBTC
     [⟨0, 0⟩] 0 rfl rfl rfl rfl rfl⟩

end Hl

namespace Hl

/-- C2 counterexample: with the stop flag unset and a closed transport,
the reader loop performs a second read iteration and broadcasts the
synthetic no-data event a second time, so the dispatcher loop does not
exit after the first closed read. -/
theorem C2_counterexample :
    readerLoop pmNone clOpen false subsOne 2 [] =
      (2, [(5, InMessage.NoData), (5, InMessage.NoData)]) := rfl

/-- C2 (amended): when the transport yields no further frame the
dispatcher broadcasts one synthetic no-data event to every Subscriber
Handle under every topic, but the loop does not exit: while the stop
flag is unset every further iteration reads again (obtaining no frame
and broadcasting no-data again), and the loop stops iterating only when
the stop flag is set at the top of an iteration. -/
theorem C2_amended_theorem :
    (∀ (pm : String → Except String InMessage) (cl : Nat → Bool)
       (subs : Registry),
       (parse_and_send_data pm cl subs ReadResult.closed).attempts =
         (subs.map (fun kv =>
           kv.2.map (fun d => (d.sending_channel, InMessage.NoData)))).flatten)
    ∧ (∀ (pm : String → Except String InMessage) (cl : Nat → Bool)
       (subs : Registry) (fuel : Nat),
       (readerLoop pm cl false subs fuel []).1 = fuel)
    ∧ (∀ (pm : String → Except String InMessage) (cl : Nat → Bool)
       (subs : Registry) (fuel : Nat) (stream : List ReadResult),
       (readerLoop pm cl true subs fuel stream).1 = 0) := by
  refine ⟨?_, ?_, ?_⟩
  · intro pm cl subs
    simp [parse_and_send_data, send_to_all_attempts]
  · intro pm cl subs fuel
    induction fuel with
    | zero => rfl
    | succ n ihn => simp [readerLoop, ihn]
  · intro pm cl subs fuel stream
    cases fuel with
    | zero => rfl
    | succ n => simp [readerLoop]

/-- C3: a successful add_subscription sends the upstream subscribe frame
exactly when the new handle is the first for its coalesced topic, and a
successful remove_subscription sends exactly one upstream unsubscribe
frame exactly when the removal leaves the topic's list empty. -/
theorem C3_subscribe_unsubscribe_iff :
    (∀ (ps : String → Except String Subscription) (sendOk : Bool)
       (st : WsManager) (ident : String) (chan sid : Nat) (entry : String),
       identifierEntry ps ident = Except.ok entry →
       (add_subscription ps sendOk st ident chan).result = Except.ok sid →
       (((add_subscription ps sendOk st ident chan).sentFrames =
           [Frame.subscribe ident]) ↔
         (lookupA st.subscriptions entry).getD [] = []) ∧
       (((add_subscription ps sendOk st ident chan).sentFrames = []) ↔
         ¬ (lookupA st.subscriptions entry).getD [] = []))
    ∧ (∀ (ps : String → Except String Subscription) (sendOk : Bool)
       (st : WsManager) (sid : Nat) (ident entry : String)
       (datas1 : List SubscriptionData),
       lookupA st.subscription_identifiers sid = some ident →
       identifierEntry ps ident = Except.ok entry →
       (remove_subscription ps sendOk st sid).result = Except.ok () →
       lookupA (remove_subscription ps sendOk st sid).state.subscriptions
         entry = some datas1 →
       (((remove_subscription ps sendOk st sid).sentFrames =
           [Frame.unsubscribe ident]) ↔ datas1 = []) ∧
       (((remove_subscription ps sendOk st sid).sentFrames = []) ↔
         ¬ datas1 = [])) := by
  constructor
  · intro ps sendOk st ident chan sid entry hE hok
    cases hne : ((lookupA st.subscriptions entry).getD []).isEmpty with
    | true =>
      have hcur : (lookupA st.subscriptions entry).getD [] = [] := by
        simpa using hne
      cases sendOk with
      | true =>
        rw [add_case_first_ok ps st ident chan entry hE hne]
        constructor <;> simp [finishAdd, hcur]
      | false =>
        rw [add_case_first_fail ps st ident chan entry hE hne] at hok
        simp at hok
    | false =>
      have hcur : ¬ (lookupA st.subscriptions entry).getD [] = [] := by
        simpa using hne
      by_cases hue : entry = "userEvents"
      · rw [add_case_guard ps sendOk st ident chan entry hE hne hue] at hok
        simp at hok
      · rw [add_case_not_first ps sendOk st ident chan entry hE hne hue]
        constructor <;> simp [finishAdd, hcur]
  · intro ps sendOk st sid ident entry datas1 h1 h2 hok hl
    cases hl3 : lookupA st.subscriptions entry with
    | none =>
      rw [remove_entry_missing ps sendOk st sid ident entry h1 h2 hl3] at hok
      simp at hok
    | some datas =>
      cases hf : List.findIdx? (fun d => d.subscription_id == sid) datas with
      | none =>
        rw [remove_idx_missing ps sendOk st sid ident entry datas h1 h2 hl3 hf] at hok
        simp at hok
      | some index =>
        rw [remove_main_state ps sendOk st sid ident entry datas index h1 h2 hl3 hf] at hl
        simp only at hl
        rw [lookupA_updateA_self st.subscriptions entry _ datas hl3] at hl
        have hd1 : datas1 = datas.eraseIdx index := by
          injection hl with h
          exact h.symm
        subst hd1
        cases h5 : (datas.eraseIdx index).isEmpty with
        | true =>
          have he : datas.eraseIdx index = [] := by simpa using h5
          cases sendOk with
          | true =>
            rw [remove_case_empty_ok ps st sid ident entry datas index h1 h2 hl3 hf h5]
            constructor <;> simp [he]
          | false =>
            rw [remove_case_empty_fail ps st sid ident entry datas index h1 h2 hl3 hf h5] at hok
            simp at hok
        | false =>
          have hne2 : ¬ datas.eraseIdx index = [] := by simpa using h5
          rw [remove_case_nonempty ps sendOk st sid ident entry datas index h1 h2 hl3 hf h5]
          constructor <;> simp [hne2]

/-- C3 witness: first add for L2Book BTC sends the subscribe frame, and
the remove that empties the list sends the unsubscribe frame. -/
theorem C3_witness :
    ((((add_subscription parseSubTest true initManager identBTC 0).sentFrames =
        [Frame.subscribe identBTC]) ↔
       (lookupA initManager.subscriptions identBTC).getD [] = []) ∧
     (((add_subscription parseSubTest true initManager identBTC 0).sentFrames =
        []) ↔ ¬ (lookupA initManager.subscriptions identBTC).getD [] = [])) ∧
    ((((remove_subscription parseSubTest true stBTC 0).sentFrames =
        [Frame.unsubscribe identBTC]) ↔ ([] : List SubscriptionData) = []) ∧
     (((remove_subscription parseSubTest true stBTC 0).sentFrames = []) ↔
       ¬ ([] : List SubscriptionData) = [])) :=
  ⟨C3_subscribe_unsubscribe_iff.1 parseSubTest true initManager identBTC 0 0
     identBTC rfl rfl,
   C3_subscribe_unsubscribe_iff.2 parseSubTest true stBTC 0 identBTC identBTC
     [] rfl rfl rfl rfl⟩

end Hl

namespace Hl

/-- C4: an add whose descriptor coalesces to "userEvents" while that
topic already holds a handle fails with the UserEvents
(AlreadySubscribed) error, sends no frame and mutates nothing; and in
every reachable state the "userEvents" topic holds at most one handle. -/
theorem C4_userEvents_exclusive :
    (∀ (ps : String → Except String Subscription) (sendOk : Bool)
       (st : WsManager) (ident : String) (chan : Nat)
       (l : List SubscriptionData),
       identifierEntry ps ident = Except.ok "userEvents" →
       lookupA st.subscriptions "userEvents" = some l →
       ¬ l = [] →
       add_subscription ps sendOk st ident chan =
         ⟨Except.error WsError.UserEvents, st, []⟩)
    ∧ (∀ (ps : String → Except String Subscription) (st : WsManager),
       Reachable ps st →
       ∀ l, lookupA st.subscriptions "userEvents" = some l →
       l.length ≤ 1) := by
  constructor
  · intro ps sendOk st ident chan l hE hl hne
    have hne2 : ((lookupA st.subscriptions "userEvents").getD []).isEmpty =
        false := by
      rw [hl]
      cases l with
      | nil => exact absurd rfl hne
      | cons a t => rfl
    rw [add_case_guard ps sendOk st ident chan "userEvents" hE hne2 rfl]
    rw [entryOrInsert_present st.subscriptions "userEvents" [] l hl]
  · intro ps st h
    exact reachable_ue_at_most_one ps st h

/-- C4 witness: a second userEvents add against an occupied topic fails
and mutates nothing; a reachable state holding one userEvents handle
satisfies the at-most-one bound. -/
theorem C4_witness :
    (add_subscription parseSubTest true stUE identUE 4 =
      ⟨Except.error WsError.UserEvents, stUE, []⟩) ∧
    ([(⟨3, 0⟩ : SubscriptionData)]).length ≤ 1 :=
  ⟨C4_userEvents_exclusive.1 parseSubTest true stUE identUE 4 [⟨3, 0⟩] rfl rfl
     (by simp),
   C4_userEvents_exclusive.2 parseSubTest
     (add_subscription parseSubTest true initManager identUE 3).state
     (Reachable.addStep initManager true identUE 3 Reachable.init)
     [⟨3, 0⟩] rfl⟩

/-- C6: remove_subscription on an id absent from the Id Index fails with
SubscriptionNotFound, sends no frame and returns the state unchanged. -/
theorem C6_remove_unknown_id (ps : String → Except String Subscription)
    (sendOk : Bool) (st : WsManager) (sid : Nat)
    (h : lookupA st.subscription_identifiers sid = none) :
    remove_subscription ps sendOk st sid =
      ⟨Except.error WsError.SubscriptionNotFound, st, []⟩ :=
  remove_not_found ps sendOk st sid h

/-- C6 witness: removing id 0 from a fresh manager fails with
SubscriptionNotFound and changes nothing. -/
theorem C6_witness :
    remove_subscription parseSubTest true initManager 0 =
      ⟨Except.error WsError.SubscriptionNotFound, initManager, []⟩ :=
  C6_remove_unknown_id parseSubTest true initManager 0 rfl

/-- C7: one dispatch step attempts delivery of the parsed event itself,
once, to every handle under its derived topic and to no other channel,
and when no queue is closed the successful deliveries are exactly those
attempts. -/
theorem dispatchMessage_none (cl : Nat → Bool) (subs : Registry)
    (m : InMessage) (T : String) (h1 : get_identifier m = Except.ok T)
    (h2 : T.isEmpty = false) (h3 : lookupA subs T = none) :
    dispatchMessage cl subs m = ⟨Except.ok (), [], []⟩ := by
  unfold dispatchMessage
  rw [h1]
  simp [h2, h3]

theorem dispatchMessage_some (cl : Nat → Bool) (subs : Registry)
    (m : InMessage) (T : String) (datas : List SubscriptionData)
    (h1 : get_identifier m = Except.ok T) (h2 : T.isEmpty = false)
    (h3 : lookupA subs T = some datas) :
    dispatchMessage cl subs m = sendToList cl m datas := by
  unfold dispatchMessage
  rw [h1]
  simp [h2, h3]

theorem C7_fanout_exact (cl : Nat → Bool) (subs : Registry) (m : InMessage)
    (T : String) (h1 : get_identifier m = Except.ok T)
    (h2 : T.isEmpty = false) :
    (dispatchMessage cl subs m).attempts =
      ((lookupA subs T).getD []).map (fun d => (d.sending_channel, m)) ∧
    ((∀ d ∈ (lookupA subs T).getD [], cl d.sending_channel = false) →
      (dispatchMessage cl subs m).delivered =
        ((lookupA subs T).getD []).map (fun d => (d.sending_channel, m))) := by
  cases hq : lookupA subs T with
  | none =>
    rw [dispatchMessage_none cl subs m T h1 h2 hq]
    exact ⟨rfl, fun _ => rfl⟩
  | some datas =>
    rw [dispatchMessage_some cl subs m T datas h1 h2 hq]
    exact ⟨sendToList_attempts cl m datas,
      fun hopen => sendToList_delivered_open cl m datas
        (fun d hd => hopen d hd)⟩

/-- C7 witness: an L2Book BTC event is attempted and delivered exactly
once to the one handle registered under its topic. -/
theorem C7_witness :
    (dispatchMessage clOpen stBTC.subscriptions
      (InMessage.L2Book "BTC" "x")).attempts =
      [(0, InMessage.L2Book "BTC" "x")] ∧
    (dispatchMessage clOpen stBTC.subscriptions
      (InMessage.L2Book "BTC" "x")).delivered =
      [(0, InMessage.L2Book "BTC" "x")] := by
  have h := C7_fanout_exact clOpen stBTC.subscriptions
    (InMessage.L2Book "BTC" "x") identBTC rfl rfl
  refine ⟨?_, ?_⟩
  · rw [h.1]
    rfl
  · rw [h.2 (fun d hd => rfl)]
    rfl

/-- C8: a closed queue among a topic's handles does not stop the
fan-out (every handle is still attempted, in order), and when any
attempt fails the dispatch step returns the recorded send error to its
caller. -/
theorem C8_delivery_failure_isolated (cl : Nat → Bool) (subs : Registry)
    (m : InMessage) (T : String) (datas : List SubscriptionData)
    (h1 : get_identifier m = Except.ok T) (h2 : T.isEmpty = false)
    (h3 : lookupA subs T = some datas) :
    (dispatchMessage cl subs m).attempts =
      datas.map (fun d => (d.sending_channel, m)) ∧
    (datas.any (fun d => cl d.sending_channel) = true →
      (dispatchMessage cl subs m).result =
        Except.error (WsError.WsSend channelClosedMsg)) := by
  rw [dispatchMessage_some cl subs m T datas h1 h2 h3]
  refine ⟨sendToList_attempts cl m datas, ?_⟩
  intro hany
  rw [sendToList_result, if_pos hany]

/-- C8 witness: with channel 5 closed both handles are still attempted
and the step returns the send error. -/
theorem C8_witness :
    (dispatchMessage clOne subsTwo (InMessage.L2Book "BTC" "y")).attempts =
      [(5, InMessage.L2Book "BTC" "y"), (6, InMessage.L2Book "BTC" "y")] ∧
    (dispatchMessage clOne subsTwo (InMessage.L2Book "BTC" "y")).result =
      Except.error (WsError.WsSend channelClosedMsg) := by
  have h := C8_delivery_failure_isolated clOne subsTwo
    (InMessage.L2Book "BTC" "y") identBTC [⟨5, 0⟩, ⟨6, 1⟩] rfl rfl rfl
  exact ⟨by rw [h.1]; rfl, h.2 rfl⟩

/-- C9: an inbound Trades event with an empty batch derives the empty
identifier and the dispatch step performs no delivery and returns
success. -/
theorem C9_empty_trades_dropped :
    get_identifier (InMessage.Trades []) = Except.ok "" ∧
    ∀ (cl : Nat → Bool) (subs : Registry),
      dispatchMessage cl subs (InMessage.Trades []) =
        ⟨Except.ok (), [], []⟩ :=
  ⟨rfl, fun _ _ => rfl⟩

/-- C10: a remove that empties a topic's list and then fails the
upstream unsubscribe send returns the send error with the handle already
removed from the Registry and the id already dropped from the Id Index,
so a repeated remove of the same id fails with SubscriptionNotFound. -/
theorem C10_remove_send_failure_not_atomic
    (ps : String → Except String Subscription) (st : WsManager) (sid : Nat)
    (ident entry : String) (datas : List SubscriptionData) (index : Nat)
    (h1 : lookupA st.subscription_identifiers sid = some ident)
    (h2 : identifierEntry ps ident = Except.ok entry)
    (h3 : lookupA st.subscriptions entry = some datas)
    (h4 : List.findIdx? (fun d => d.subscription_id == sid) datas = some index)
    (h5 : (datas.eraseIdx index).isEmpty = true) :
    (remove_subscription ps false st sid).result =
      Except.error (WsError.Websocket sendFailMsg) ∧
    (remove_subscription ps false st sid).sentFrames = [] ∧
    lookupA (remove_subscription ps false st
      sid).state.subscription_identifiers sid = none ∧
    lookupA (remove_subscription ps false st sid).state.subscriptions entry =
      some [] ∧
    ∀ sendOk2, (remove_subscription ps sendOk2
      (remove_subscription ps false st sid).state sid).result =
        Except.error WsError.SubscriptionNotFound := by
  have hmain := remove_case_empty_fail ps st sid ident entry datas index
    h1 h2 h3 h4 h5
  have he : datas.eraseIdx index = [] := by simpa using h5
  have hnone : lookupA (remove_subscription ps false st
      sid).state.subscription_identifiers sid = none := by
    rw [hmain]
    exact lookupA_removeA_self st.subscription_identifiers sid
  refine ⟨?_, ?_, hnone, ?_, ?_⟩
  · rw [hmain]
  · rw [hmain]
  · rw [hmain]
    show lookupA (updateA st.subscriptions entry (datas.eraseIdx index))
      entry = some []
    rw [lookupA_updateA_self st.subscriptions entry _ datas h3, he]
  · intro sendOk2
    rw [remove_not_found ps sendOk2
      (remove_subscription ps false st sid).state sid hnone]

/-- C10 witness: removing the only BTC subscription with a failing
unsubscribe send at the concrete state. -/
theorem C10_witness :
    (remove_subscription parseSubTest false stBTC 0).result =
      Except.error (WsError.Websocket sendFailMsg) ∧
    (remove_subscription parseSubTest false stBTC 0).sentFrames = [] ∧
    lookupA (remove_subscription parseSubTest false stBTC
      0).state.subscription_identifiers 0 = none ∧
    lookupA (remove_subscription parseSubTest false stBTC
      0).state.subscriptions identBTC = some [] ∧
    (remove_subscription parseSubTest true
      (remove_subscription parseSubTest false stBTC 0).state 0).result =
      Except.error WsError.SubscriptionNotFound := by
  have h := C10_remove_send_failure_not_atomic parseSubTest stBTC 0
    identBTC identBTC [⟨0, 0⟩] 0 rfl rfl rfl rfl rfl
  exact ⟨h.1, h.2.1, h.2.2.1, h.2.2.2.1, h.2.2.2.2 true⟩

end Hl

namespace Hl

theorem runOps_ids_mod (ps : String → Except String Subscription) :
    ∀ (ops : List WsOp) (st : WsManager), st.subscription_id < u32Mod →
      (runOps ps st ops).2 =
        (List.range (runOps ps st ops).2.length).map
          (fun j => (st.subscription_id + j) % u32Mod) := by
  intro ops
  induction ops with
  | nil =>
    intro st hlt
    simp [runOps]
  | cons op rest ih =>
    intro st hlt
    cases op with
    | addOp sendOk ident chan =>
      cases hr : (add_subscription ps sendOk st ident chan).result with
      | ok sid =>
        have hid := add_result_ok_id ps sendOk st ident chan sid hr
        have hlt2 : (add_subscription ps sendOk st ident
            chan).state.subscription_id < u32Mod := by
          rw [hid.2]
          exact Nat.mod_lt _ (by norm_num [u32Mod])
        have ihs := ih (add_subscription ps sendOk st ident chan).state hlt2
        simp only [runOps, hr]
        rw [ihs, hid.2]
        simp only [List.length_cons, List.length_map, List.length_range]
        rw [List.range_succ_eq_map, List.map_cons, List.map_map]
        congr 1
        · rw [hid.1]
          rw [Nat.add_zero, Nat.mod_eq_of_lt hlt]
        · have hfun :
              (fun j => ((st.subscription_id + 1) % u32Mod + j) % u32Mod) =
                ((fun j => (st.subscription_id + j) % u32Mod) ∘ Nat.succ) := by
            funext j
            simp only [Function.comp]
            rw [Nat.mod_add_mod]
            have harg : st.subscription_id + 1 + j =
                st.subscription_id + Nat.succ j := by omega
            rw [harg]
          rw [hfun]
      | error e =>
        have hid := add_result_err_id ps sendOk st ident chan e hr
        have ihs := ih (add_subscription ps sendOk st ident chan).state
          (by rw [hid]; exact hlt)
        simp only [runOps, hr]
        rw [ihs, hid]
        simp
    | removeOp sendOk sid =>
      have hid := remove_state_id ps sendOk st sid
      have ihs := ih (remove_subscription ps sendOk st sid).state
        (by rw [hid]; exact hlt)
      simp only [runOps]
      rw [ihs, hid]
      simp

theorem addBTC_ok (st : WsManager) :
    (add_subscription parseSubTest true st identBTC 0).result =
      Except.ok st.subscription_id := by
  have hE : identifierEntry parseSubTest identBTC = Except.ok identBTC := rfl
  cases hne : ((lookupA st.subscriptions identBTC).getD []).isEmpty with
  | true =>
    rw [add_case_first_ok parseSubTest st identBTC 0 identBTC hE hne]
    rfl
  | false =>
    have hue : ¬ identBTC = "userEvents" := by decide
    rw [add_case_not_first parseSubTest true st identBTC 0 identBTC hE hne hue]
    rfl

theorem replicate_addBTC_length : ∀ (n : Nat) (st : WsManager),
    (runOps parseSubTest st
      (List.replicate n (WsOp.addOp true identBTC 0))).2.length = n := by
  intro n
  induction n with
  | zero => intro st; rfl
  | succ m ihm =>
    intro st
    rw [List.replicate_succ]
    simp only [runOps, addBTC_ok st]
    simp [ihm]

end Hl

namespace Hl

/-- C5 counterexample: in a trace of `2 ^ 32 + 1` successful adds the
`u32` id counter wraps, so id 0 is returned again at position `2 ^ 32`
and the issued ids are not pairwise strictly increasing: the claim
fails over this sequence of operations. -/
theorem C5_counterexample :
    ¬ List.Pairwise (· < ·)
      (runOps parseSubTest initManager
        (List.replicate (u32Mod + 1) (WsOp.addOp true identBTC 0))).2 := by
  intro hp
  have hform := runOps_ids_mod parseSubTest
    (List.replicate (u32Mod + 1) (WsOp.addOp true identBTC 0)) initManager
    (by norm_num [initManager, u32Mod])
  have hlen := replicate_addBTC_length (u32Mod + 1) initManager
  rw [hform, hlen] at hp
  rw [List.pairwise_iff_getElem] at hp
  have hlen2 :
      ((List.range (u32Mod + 1)).map
        (fun j => (initManager.subscription_id + j) % u32Mod)).length =
      u32Mod + 1 := by
    simp
  have hcmp := hp 0 u32Mod (by rw [hlen2]; omega) (by rw [hlen2]; omega)
    (by norm_num [u32Mod])
  simp only [List.getElem_map, List.getElem_range] at hcmp
  norm_num [initManager, Nat.mod_self] at hcmp

/-- C5 (amended): the subscription ids returned by successful
add_subscription calls are pairwise strictly increasing, and hence never
returned twice, across every sequence of add and remove operations in
which at most `2 ^ 32` adds succeed; the counter is a `u32`, so after
`2 ^ 32` successful adds it wraps and previously issued ids are returned
again. -/
theorem C5_amended_theorem (ps : String → Except String Subscription)
    (ops : List WsOp)
    (h : (runOps ps initManager ops).2.length ≤ u32Mod) :
    List.Pairwise (· < ·) (runOps ps initManager ops).2 := by
  have hform := runOps_ids_mod ps ops initManager
    (by norm_num [initManager, u32Mod])
  rw [hform]
  rw [List.pairwise_iff_getElem]
  intro i j hi hj hij
  simp only [List.length_map, List.length_range] at hi hj
  simp only [List.getElem_map, List.getElem_range]
  have hjW : j < u32Mod := lt_of_lt_of_le hj h
  have hiW : i < u32Mod := lt_trans hij hjW
  show (initManager.subscription_id + i) % u32Mod <
    (initManager.subscription_id + j) % u32Mod
  have h0 : initManager.subscription_id = 0 := rfl
  rw [h0, Nat.zero_add, Nat.zero_add, Nat.mod_eq_of_lt hiW,
    Nat.mod_eq_of_lt hjW]
  exact hij

/-- C5 amended witness: a two-add trace issues ids 0 and 1, pairwise
increasing. -/
theorem C5_amended_witness :
    List.Pairwise (· < ·)
      (runOps parseSubTest initManager
        [WsOp.addOp true identBTC 0, WsOp.addOp true identBTC 1]).2 :=
  C5_amended_theorem parseSubTest
    [WsOp.addOp true identBTC 0, WsOp.addOp true identBTC 1] (by decide)

end Hl
